import Mathlib

/-!
Verification of the diagram-generation modal
(`src/modules/aifn/digrams/DiagramsModal.tsx`).

Strings are embedded as `List Char`; the JavaScript `String.replaceAll`
(left-to-right, non-overlapping, the replacement is not rescanned) is
embedded as `replaceAll`, driven by a fuel argument bounded by the length
of the scanned string so that the definition is structurally recursive
and computable by the kernel.
-/

/-- Characters of a string literal, the carrier for embedded JS strings. -/
def strL (s : String) : List Char := s.data

/-- One left-to-right non-overlapping replacement pass, with fuel.
Each step consumes at least one character of the scanned list, so fuel
equal to the list length is always enough. -/
def replaceAllFuel (p r : List Char) : Nat → List Char → List Char
  | 0, s => s
  | _ + 1, [] => []
  | fuel + 1, c :: cs =>
    if p.isPrefixOf (c :: cs) then
      r ++ replaceAllFuel p r fuel ((c :: cs).drop p.length)
    else
      c :: replaceAllFuel p r fuel cs

/-- JS `String.replaceAll p r` on the embedded strings. -/
def replaceAll (p r s : List Char) : List Char :=
  replaceAllFuel p r s.length s

/-- Whether `p` occurs as a contiguous subsequence of `s`
(JS `String.includes`). -/
def containsSeq (p : List Char) : List Char → Bool
  | [] => p.isPrefixOf []
  | c :: cs => p.isPrefixOf (c :: cs) || containsSeq p (cs)

/-- First stage of the hot-fix: if the code starts with a diagram-block
opener `@start`, wrap it in a markdown fence. -/
def fenceWrap (llmCode : List Char) : List Char :=
  if (strL "@start").isPrefixOf llmCode then
    strL "```\n" ++ llmCode ++ strL "\n```"
  else llmCode

/-- The text-repair function `hotFixDiagramCode` from the source:
fence-wrap, then collapse the malformed mindmap closing pair, then
collapse empty fence pairs. -/
def hotFixDiagramCode (llmCode : List Char) : List Char :=
  let code :=
    if (strL "@start").isPrefixOf llmCode then
      strL "```\n" ++ llmCode ++ strL "\n```"
    else llmCode
  replaceAll (strL "```\n```") (strL "```")
    (replaceAll (strL "@endmindmap\n@enduml") (strL "@endmindmap") code)

/-! ## Dialog state and collaborating store -/

/-- Modelled from the spec: a chat message of the external conversation
store (`DMessage` of `store-chats`, not under `src/`): a role tag, a text
body, and an origin tag identifying the generator. `createDMessage` fills
role and text and leaves the origin unset. -/
structure DMessage where
  role : List Char
  text : List Char
  originLLM : Option (List Char)
deriving DecidableEq, Repr

/-- Modelled from the spec: `createDMessage(role, text)` of the external
conversation store constructs a message with the given role and text and
no origin tag. -/
def createDMessage (role text : List Char) : DMessage :=
  { role := role, text := text, originLLM := none }

/-- Modelled from the spec: a conversation of the external store — an
identifier and an ordered message list. -/
structure Conversation where
  id : List Char
  messages : List DMessage
deriving DecidableEq, Repr

/-- Modelled from the spec: the store mutation `appendMessage(cid, msg)`
appends one message to the conversation with the given identifier. -/
def appendMessage (conversations : List Conversation) (cid : List Char)
    (msg : DMessage) : List Conversation :=
  conversations.map fun c =>
    if c.id = cid then { c with messages := c.messages ++ [msg] } else c

/-- The component state that the generation handler reads and writes:
`diagramCode`, `errorMessage` (both `string | null`) and the abort
controller (`AbortController | null`, modelled by whether one is set). -/
structure GenState where
  diagramCode : Option (List Char)
  errorMessage : Option (List Char)
  abortController : Bool
deriving DecidableEq, Repr

/-- One state-setting step or outward call performed by
`handleGenerateNew`, in program order. -/
inductive GenEvent where
  | setErrorMessage (v : Option (List Char))
  | setDiagramCode (v : Option (List Char))
  | setAbortController (b : Bool)
  | streamCall (llmId : List Char)
deriving DecidableEq, Repr

/-- How the awaited `llmStreamingChatGenerate` call ends: it resolves, or
it rejects with an error carrying an optional `name` and `message`; in
both cases it has delivered a sequence of `textSoFar` chunks. -/
inductive StreamOutcome where
  | ok (chunks : List (List Char))
  | err (chunks : List (List Char)) (name : Option (List Char)) (msg : Option (List Char))
deriving DecidableEq, Repr

/-- The `textSoFar` chunks an outcome delivered before completing. -/
def StreamOutcome.chunks : StreamOutcome → List (List Char)
  | .ok cs => cs
  | .err cs _ _ => cs

/-- The local `diagramCode` variable at the end of the attempt: starts as
the placeholder and is overwritten by every truthy (non-empty) chunk
(the streaming callback assigns both the local variable and the state
whenever textSoFar is truthy, and skips empty deliveries). -/
def lastText (chunks : List (List Char)) : List Char :=
  chunks.foldl (fun acc t => if t = [] then acc else t) (strL "Loading...")

/-- The state-update events the streaming callback fires: one
`setDiagramCode` per truthy chunk. -/
def chunkEvents (chunks : List (List Char)) : List GenEvent :=
  chunks.filterMap fun t =>
    if t = [] then none else some (.setDiagramCode (some t))

/-- The events of the `catch` block: `setDiagramCode(null)` and the error
message — the message carried by the error unless its name is `AbortError`, in
which case the benign `Interrupted.`. -/
def catchEvents (name msg : Option (List Char)) : List GenEvent :=
  [.setDiagramCode none,
   .setErrorMessage (if name = some (strL "AbortError") then some (strL "Interrupted.") else msg)]

/-- The events of the `finally` block: store the repaired last known text
and clear the abort controller. -/
def finallyEvents (chunks : List (List Char)) : List GenEvent :=
  [.setDiagramCode (some (hotFixDiagramCode (lastText chunks))),
   .setAbortController false]

/-- The proceeding part of `handleGenerateNew` once all validation
passed: clear the error, show the placeholder, install the abort
controller, issue the streaming call, replay its callbacks and ending,
then run the `finally` block. -/
def genProceed (llmId : List Char) (outcome : StreamOutcome) : List GenEvent :=
  [.setErrorMessage none,
   .setDiagramCode (some (strL "Loading...")),
   .setAbortController true,
   .streamCall llmId]
  ++ (match outcome with
      | .ok chunks => chunkEvents chunks
      | .err chunks name msg => chunkEvents chunks ++ catchEvents name msg)
  ++ finallyEvents outcome.chunks

/-- `handleGenerateNew` as the sequence of state-setting events and
outward calls it performs, given the component state, the store contents,
the radio selections (`diagramType`, `diagramLanguage`, `diagramLlm` — the
last modelled by its id) and how the streaming call would end. -/
def handleGenerateNew (st : GenState) (conversations : List Conversation)
    (conversationId : List Char)
    (diagramType diagramLanguage diagramLlm : Option (List Char))
    (outcome : StreamOutcome) : List GenEvent :=
  if st.abortController then []
  else
    match diagramType, diagramLanguage, diagramLlm,
        conversations.find? (fun c => c.id == conversationId) with
    | some _, some _, some llmId, some conversation =>
      if (conversation.messages.head?).map DMessage.role = some (strL "system") then
        genProceed llmId outcome
      else
        [.setErrorMessage (some (strL "No System message in this conversation"))]
    | _, _, _, _ =>
      [.setErrorMessage (some (strL "Invalid diagram Type, Language, Generator, or conversation."))]

/-- Effect of one event on the component state (`streamCall` is an
outward call, not a state change). -/
def applyEvent (st : GenState) : GenEvent → GenState
  | .setErrorMessage v => { st with errorMessage := v }
  | .setDiagramCode v => { st with diagramCode := v }
  | .setAbortController b => { st with abortController := b }
  | .streamCall _ => st

/-- Replay a sequence of events on the component state. -/
def applyEvents (st : GenState) (evs : List GenEvent) : GenState :=
  evs.foldl applyEvent st

/-- Whether an event issues the streaming call. -/
def isStreamCall : GenEvent → Bool
  | .streamCall _ => true
  | _ => false

/-- Whether an event clears the abort controller (the second half of the
finalization step). -/
def isClearAbort : GenEvent → Bool
  | .setAbortController false => true
  | _ => false

/-! ## Commit (`handleInsertAndClose`) and teardown -/

/-- One step performed by `handleInsertAndClose`. -/
inductive InsertEvent where
  | setErrorMessage (v : Option (List Char))
  | storeAppend (cid : List Char) (msg : DMessage)
  | close
deriving DecidableEq, Repr

/-- `handleInsertAndClose` as the sequence of steps it performs. It reads
`diagramCode`, `diagramLlm` and the conversation id; it does not read the
abort controller, which is passed here only to record that fact. -/
def handleInsertAndClose (diagramCode : Option (List Char))
    (diagramLlm : Option (List Char)) (conversationId : List Char)
    (_abortController : Bool) : List InsertEvent :=
  match diagramCode with
  | none => [.setErrorMessage (some (strL "Nothing to add to the conversation."))]
  | some code =>
    if code = [] then
      [.setErrorMessage (some (strL "Nothing to add to the conversation."))]
    else
      let msg := { createDMessage (strL "assistant") code with
        originLLM := some (strL "diagram" ++
          (match diagramLlm with
           | some llmId => if llmId = [] then [] else strL "-" ++ llmId
           | none => [])) }
      [.storeAppend conversationId msg, .close]

/-- Whether an insert-handler event mutates the conversation store. -/
def isStoreAppend : InsertEvent → Bool
  | .storeAppend _ _ => true
  | _ => false

/-- Effect of the insert-handler events on the conversation store. -/
def applyInsertEvents (conversations : List Conversation) :
    List InsertEvent → List Conversation
  | [] => conversations
  | .storeAppend cid msg :: rest => applyInsertEvents (appendMessage conversations cid msg) rest
  | _ :: rest => applyInsertEvents conversations rest

/-- The `disabled` expression of the Add-To-Chat button:
`!diagramCode || !!abortController`. -/
def addToChatDisabled (diagramCode : Option (List Char)) (abortController : Bool) : Bool :=
  (match diagramCode with
   | none => true
   | some code => code = []) || abortController

/-- One step performed by the unmount-effect cleanup. -/
inductive CleanupEvent where
  | abortSignal
  | setAbortController (b : Bool)
deriving DecidableEq, Repr

/-- The cleanup closure of the auto-abort effect: if an abort controller
is live, signal it and clear it; otherwise do nothing. -/
def unmountCleanup (abortController : Bool) : List CleanupEvent :=
  if abortController then [.abortSignal, .setAbortController false]
  else []

/-- Whether a cleanup event sends the cancellation signal. -/
def isAbortSignal : CleanupEvent → Bool
  | .abortSignal => true
  | _ => false

/-- The abort-controller state after replaying the cleanup events
(starting from whether one was live). -/
def applyCleanupEvents (abortController : Bool) : List CleanupEvent → Bool
  | [] => abortController
  | .setAbortController b :: rest => applyCleanupEvents b rest
  | _ :: rest => applyCleanupEvents abortController rest

/-! ## Helper lemmas -/

/-- A replacement pass over a string that nowhere contains the pattern is
the identity. -/
theorem replaceAllFuel_of_not_contains (p r : List Char) :
    ∀ (fuel : Nat) (s : List Char), containsSeq p s = false → s.length ≤ fuel →
      replaceAllFuel p r fuel s = s := by
  intro fuel
  induction fuel with
  | zero =>
    intro s _ _
    rfl
  | succ fuel ih =>
    intro s hc hl
    cases s with
    | nil => rfl
    | cons c cs =>
      simp only [containsSeq, Bool.or_eq_false_iff] at hc
      simp only [replaceAllFuel, hc.1, Bool.false_eq_true, if_false, List.cons.injEq, true_and]
      exact ih cs hc.2 (by simpa using Nat.le_of_succ_le_succ hl)

/-- The `replaceAll` embedding is the identity when the pattern does not
occur in the string. -/
theorem replaceAll_of_not_contains (p r s : List Char)
    (hc : containsSeq p s = false) : replaceAll p r s = s :=
  replaceAllFuel_of_not_contains p r s.length s hc (Nat.le_refl _)

/-- The streaming-callback events never clear the abort controller. -/
theorem countP_isClearAbort_chunkEvents (cs : List (List Char)) :
    (chunkEvents cs).countP isClearAbort = 0 := by
  induction cs with
  | nil => rfl
  | cons c cs ih =>
    by_cases hc : c = [] <;>
      simp [chunkEvents, List.filterMap_cons, hc, List.countP_cons, isClearAbort] <;>
      simpa [chunkEvents] using ih

/-- The streaming-callback events touch only `diagramCode`: the error
message and the abort controller pass through unchanged. -/
theorem applyEvents_chunkEvents (cs : List (List Char)) :
    ∀ st : GenState, (applyEvents st (chunkEvents cs)).errorMessage = st.errorMessage ∧
      (applyEvents st (chunkEvents cs)).abortController = st.abortController := by
  induction cs with
  | nil =>
    intro st
    exact ⟨rfl, rfl⟩
  | cons c cs ih =>
    intro st
    by_cases hc : c = []
    · simpa [chunkEvents, List.filterMap_cons, hc] using ih st
    · simpa [chunkEvents, List.filterMap_cons, hc, applyEvents, applyEvent] using
        ih { st with diagramCode := some c }

/-- Replaying `genProceed` on any state for a resolving stream yields the
repaired last text, no error message, and a cleared abort controller. -/
theorem applyEvents_genProceed_ok (st : GenState) (llmId : List Char)
    (cs : List (List Char)) :
    applyEvents st (genProceed llmId (.ok cs)) =
      { diagramCode := some (hotFixDiagramCode (lastText cs)),
        errorMessage := none, abortController := false } := by
  have hmid := applyEvents_chunkEvents cs
    { st with errorMessage := none, diagramCode := some (strL "Loading..."), abortController := true }
  simp only [genProceed, StreamOutcome.chunks, finallyEvents, applyEvents,
    List.foldl_append, List.foldl_cons, List.foldl_nil, applyEvent] at *
  cases happ : applyEvents
      { st with errorMessage := none, diagramCode := some (strL "Loading..."), abortController := true }
      (chunkEvents cs) with
  | mk d e a =>
    simp only [applyEvents] at happ
    rw [happ] at hmid
    simp_all [applyEvent]

/-- Replaying `genProceed` on any state for a rejecting stream yields the
repaired last text, the error message chosen by the catch block, and a
cleared abort controller. -/
theorem applyEvents_genProceed_err (st : GenState) (llmId : List Char)
    (cs : List (List Char)) (name msg : Option (List Char)) :
    applyEvents st (genProceed llmId (.err cs name msg)) =
      { diagramCode := some (hotFixDiagramCode (lastText cs)),
        errorMessage :=
          if name = some (strL "AbortError") then some (strL "Interrupted.") else msg,
        abortController := false } := by
  simp only [genProceed, StreamOutcome.chunks, finallyEvents, catchEvents, applyEvents,
    List.foldl_append, List.foldl_cons, List.foldl_nil, applyEvent]

/-- The clearing of the abort controller happens exactly once in a
proceeding attempt, whatever the stream outcome. -/
theorem genProceed_countP_clearAbort (llmId : List Char) (outcome : StreamOutcome) :
    (genProceed llmId outcome).countP isClearAbort = 1 := by
  cases outcome with
  | ok cs =>
    simp [genProceed, finallyEvents, List.countP_append, List.countP_cons,
      countP_isClearAbort_chunkEvents, isClearAbort]
  | err cs name msg =>
    simp [genProceed, finallyEvents, catchEvents, List.countP_append, List.countP_cons,
      countP_isClearAbort_chunkEvents, isClearAbort]

/-- A proceeding attempt always ends with the two finalization events. -/
theorem genProceed_ends_with_finalization (llmId : List Char) (outcome : StreamOutcome) :
    ∃ pre, genProceed llmId outcome =
      pre ++ [.setDiagramCode (some (hotFixDiagramCode (lastText outcome.chunks))),
              .setAbortController false] := by
  refine ⟨[.setErrorMessage none,
           .setDiagramCode (some (strL "Loading...")),
           .setAbortController true,
           .streamCall llmId]
    ++ (match outcome with
        | .ok chunks => chunkEvents chunks
        | .err chunks name msg => chunkEvents chunks ++ catchEvents name msg), ?_⟩
  simp [genProceed, finallyEvents, List.append_assoc]

/-- When validation passes and no attempt is in flight, the handler is
exactly the proceeding attempt. -/
theorem handleGenerateNew_valid_eq (st : GenState) (conversations : List Conversation)
    (conversationId : List Char) (t l llmId : List Char) (conversation : Conversation)
    (outcome : StreamOutcome)
    (hab : st.abortController = false)
    (hfind : conversations.find? (fun c => c.id == conversationId) = some conversation)
    (hsys : (conversation.messages.head?).map DMessage.role = some (strL "system")) :
    handleGenerateNew st conversations conversationId (some t) (some l) (some llmId) outcome
      = genProceed llmId outcome := by
  simp [handleGenerateNew, hab, hfind, hsys]

/-- The finalization events are the last two of a proceeding attempt,
read from the end of the trace. -/
theorem genProceed_reverse_take (llmId : List Char) (outcome : StreamOutcome) :
    (genProceed llmId outcome).reverse.take 2 =
      [.setAbortController false,
       .setDiagramCode (some (hotFixDiagramCode (lastText outcome.chunks)))] := by
  obtain ⟨pre, hpre⟩ := genProceed_ends_with_finalization llmId outcome
  rw [hpre, List.reverse_append]
  simp

/-- A hot-fix pass leaves a string alone once it does not begin with the
diagram opener and contains neither substitution pattern. -/
theorem hotFixDiagramCode_fixed (t : List Char)
    (h1 : (strL "@start").isPrefixOf t = false)
    (h2 : containsSeq (strL "@endmindmap\n@enduml") t = false)
    (h3 : containsSeq (strL "```\n```") t = false) :
    hotFixDiagramCode t = t := by
  unfold hotFixDiagramCode
  simp only [h1, Bool.false_eq_true, if_false]
  rw [replaceAll_of_not_contains _ _ _ h2, replaceAll_of_not_contains _ _ _ h3]

/-- The local last-text variable stays at the placeholder when every
delivered chunk is empty. -/
theorem lastText_of_all_empty (cs : List (List Char)) (h : ∀ t ∈ cs, t = []) :
    lastText cs = strL "Loading..." := by
  unfold lastText
  generalize strL "Loading..." = init
  induction cs generalizing init with
  | nil => rfl
  | cons c cs ih =>
    have hc : c = [] := h c (List.mem_cons_self c cs)
    simp only [List.foldl_cons, hc, if_pos rfl]
    exact ih (fun t ht => h t (List.mem_cons_of_mem _ ht)) init

/-! ## Concrete fixtures for witnesses and counterexamples -/

/-- A conversation whose first message is system-role. -/
def demoConv : Conversation :=
  { id := strL "c1", messages := [{ role := strL "system", text := strL "context", originLLM := none }] }

/-- A one-conversation store. -/
def demoStore : List Conversation := [demoConv]

/-- The component state with nothing set and no attempt in flight. -/
def idleState : GenState := { diagramCode := none, errorMessage := none, abortController := false }

/-- The component state with an attempt in flight. -/
def busyState : GenState := { diagramCode := none, errorMessage := none, abortController := true }

/-! ## Claims -/

/-- C1: while a generation is in flight (the abort controller is set),
invoking the generation handler is a no-op: it performs no state change,
issues no streaming call, and leaves every state field unchanged. -/
theorem generateNew_noop_when_inflight (st : GenState) (conversations : List Conversation)
    (conversationId : List Char) (dT dL dM : Option (List Char)) (outcome : StreamOutcome)
    (h : st.abortController = true) :
    handleGenerateNew st conversations conversationId dT dL dM outcome = [] ∧
    applyEvents st (handleGenerateNew st conversations conversationId dT dL dM outcome) = st ∧
    (handleGenerateNew st conversations conversationId dT dL dM outcome).countP isStreamCall = 0 := by
  simp [handleGenerateNew, h, applyEvents]

/-- Witness for C1 at a concrete busy state. -/
theorem generateNew_noop_when_inflight_witness :
    handleGenerateNew busyState demoStore (strL "c1")
        (some (strL "auto")) (some (strL "plantuml")) (some (strL "gpt")) (.ok [strL "X"]) = [] ∧
    applyEvents busyState (handleGenerateNew busyState demoStore (strL "c1")
        (some (strL "auto")) (some (strL "plantuml")) (some (strL "gpt")) (.ok [strL "X"])) = busyState ∧
    (handleGenerateNew busyState demoStore (strL "c1")
        (some (strL "auto")) (some (strL "plantuml")) (some (strL "gpt")) (.ok [strL "X"])).countP isStreamCall = 0 :=
  generateNew_noop_when_inflight busyState demoStore (strL "c1")
    (some (strL "auto")) (some (strL "plantuml")) (some (strL "gpt")) (.ok [strL "X"]) rfl

/-- C2: every attempt that issues the streaming call finalizes exactly
once on every exit path: the abort controller is cleared exactly once,
the trace ends with storing the repaired last known text followed by the
clearing, and the resulting state holds that repaired text with the
handle back to null. -/
theorem generateNew_finalizes_once (st : GenState) (conversations : List Conversation)
    (conversationId : List Char) (dT dL dM : Option (List Char)) (outcome : StreamOutcome)
    (h : (handleGenerateNew st conversations conversationId dT dL dM outcome).countP isStreamCall ≠ 0) :
    (handleGenerateNew st conversations conversationId dT dL dM outcome).countP isClearAbort = 1 ∧
    (handleGenerateNew st conversations conversationId dT dL dM outcome).reverse.take 2 =
      [.setAbortController false,
       .setDiagramCode (some (hotFixDiagramCode (lastText outcome.chunks)))] ∧
    (applyEvents st (handleGenerateNew st conversations conversationId dT dL dM outcome)).diagramCode
      = some (hotFixDiagramCode (lastText outcome.chunks)) ∧
    (applyEvents st (handleGenerateNew st conversations conversationId dT dL dM outcome)).abortController
      = false := by
  cases hab : st.abortController with
  | true => exact absurd (by simp [handleGenerateNew, hab]) h
  | false =>
    rcases dT with _ | t
    · exact absurd (by simp [handleGenerateNew, hab, isStreamCall]) h
    rcases dL with _ | l
    · exact absurd (by simp [handleGenerateNew, hab, isStreamCall]) h
    rcases dM with _ | m
    · exact absurd (by simp [handleGenerateNew, hab, isStreamCall]) h
    cases hfind : conversations.find? (fun c => c.id == conversationId) with
    | none => exact absurd (by simp [handleGenerateNew, hab, hfind, isStreamCall]) h
    | some conv =>
      by_cases hsys : (conv.messages.head?).map DMessage.role = some (strL "system")
      · rw [handleGenerateNew_valid_eq st conversations conversationId t l m conv outcome hab hfind hsys]
        refine ⟨genProceed_countP_clearAbort m outcome, genProceed_reverse_take m outcome, ?_⟩
        cases outcome with
        | ok cs =>
          rw [applyEvents_genProceed_ok]
          exact ⟨rfl, rfl⟩
        | err cs name msg =>
          rw [applyEvents_genProceed_err]
          exact ⟨rfl, rfl⟩
      · exact absurd (by simp [handleGenerateNew, hab, hfind, hsys, isStreamCall]) h

/-- Witness for C2 at a concrete successful attempt. -/
theorem generateNew_finalizes_once_witness :
    (handleGenerateNew idleState demoStore (strL "c1")
        (some (strL "auto")) (some (strL "plantuml")) (some (strL "gpt"))
        (.ok [strL "X"])).countP isClearAbort = 1 ∧
    (handleGenerateNew idleState demoStore (strL "c1")
        (some (strL "auto")) (some (strL "plantuml")) (some (strL "gpt"))
        (.ok [strL "X"])).reverse.take 2 =
      [.setAbortController false,
       .setDiagramCode (some (hotFixDiagramCode (lastText (StreamOutcome.ok [strL "X"]).chunks)))] ∧
    (applyEvents idleState (handleGenerateNew idleState demoStore (strL "c1")
        (some (strL "auto")) (some (strL "plantuml")) (some (strL "gpt"))
        (.ok [strL "X"]))).diagramCode
      = some (hotFixDiagramCode (lastText (StreamOutcome.ok [strL "X"]).chunks)) ∧
    (applyEvents idleState (handleGenerateNew idleState demoStore (strL "c1")
        (some (strL "auto")) (some (strL "plantuml")) (some (strL "gpt"))
        (.ok [strL "X"]))).abortController = false :=
  generateNew_finalizes_once idleState demoStore (strL "c1")
    (some (strL "auto")) (some (strL "plantuml")) (some (strL "gpt"))
    (.ok [strL "X"]) (by decide)

/-- C3 counterexample: the repair function is not idempotent — replacing
the malformed mindmap pair can create a new occurrence of the pattern,
which a second application then also collapses. -/
theorem hotFix_not_idempotent :
    hotFixDiagramCode (hotFixDiagramCode (strL "@endmindmap\n@enduml\n@enduml"))
      ≠ hotFixDiagramCode (strL "@endmindmap\n@enduml\n@enduml") := by
  decide

/-- C3 (amended): the repair function is idempotent on every input whose
single-application output no longer begins with the diagram opener and
contains neither substitution pattern; in general a second application
can differ from the first. -/
theorem hotFix_idempotent_of_stable (s : List Char)
    (h1 : (strL "@start").isPrefixOf (hotFixDiagramCode s) = false)
    (h2 : containsSeq (strL "@endmindmap\n@enduml") (hotFixDiagramCode s) = false)
    (h3 : containsSeq (strL "```\n```") (hotFixDiagramCode s) = false) :
    hotFixDiagramCode (hotFixDiagramCode s) = hotFixDiagramCode s :=
  hotFixDiagramCode_fixed (hotFixDiagramCode s) h1 h2 h3

/-- Witness for the amended C3 at a concrete stable input. -/
theorem hotFix_idempotent_of_stable_witness :
    (strL "@start").isPrefixOf (hotFixDiagramCode (strL "hello")) = false ∧
    containsSeq (strL "@endmindmap\n@enduml") (hotFixDiagramCode (strL "hello")) = false ∧
    containsSeq (strL "```\n```") (hotFixDiagramCode (strL "hello")) = false ∧
    hotFixDiagramCode (hotFixDiagramCode (strL "hello")) = hotFixDiagramCode (strL "hello") :=
  ⟨by decide, by decide, by decide,
   hotFix_idempotent_of_stable (strL "hello") (by decide) (by decide) (by decide)⟩

/-- C4: the repair function is the stated composition — fence-wrap, then
mindmap-pair collapse, then empty-fence collapse — and on the three
example shapes it produces exactly the specified outputs, replacing every
(non-overlapping, left-to-right) occurrence of the two patterns. -/
theorem hotFix_stages_and_examples :
    (∀ s : List Char, hotFixDiagramCode s =
      replaceAll (strL "```\n```") (strL "```")
        (replaceAll (strL "@endmindmap\n@enduml") (strL "@endmindmap") (fenceWrap s))) ∧
    hotFixDiagramCode (strL "@startuml\nA->B\n@enduml")
      = strL "```\n@startuml\nA->B\n@enduml\n```" ∧
    hotFixDiagramCode (strL "A\n@endmindmap\n@enduml\nB\n@endmindmap\n@enduml\nC")
      = strL "A\n@endmindmap\nB\n@endmindmap\nC" ∧
    hotFixDiagramCode (strL "x```\n```y```\n```z") = strL "x```y```z" :=
  ⟨fun _ => rfl, by decide, by decide, by decide⟩

/-- C5 counterexample: with a generation already in flight and no
generator selected, the handler returns at the in-flight guard, so no
validation error message is set (the claim asserts one is set). -/
theorem validation_gating_counterexample :
    handleGenerateNew busyState demoStore (strL "c1") none none none (.ok []) = [] ∧
    (applyEvents busyState
      (handleGenerateNew busyState demoStore (strL "c1") none none none (.ok []))).errorMessage
      = none := by
  decide

/-- C5 (amended): provided no generation is in flight, an invocation with
a missing selection or a missing or non-system first message issues no
streaming call, sets one of the two validation error messages, and leaves
the result text and the abort controller unchanged. -/
theorem generateNew_validation_gating (st : GenState) (conversations : List Conversation)
    (conversationId : List Char) (dT dL dM : Option (List Char)) (outcome : StreamOutcome)
    (hab : st.abortController = false)
    (hbad : (dT = none ∨ dL = none ∨ dM = none ∨
        conversations.find? (fun c => c.id == conversationId) = none) ∨
      ∃ conv, conversations.find? (fun c => c.id == conversationId) = some conv ∧
        ¬ (conv.messages.head?).map DMessage.role = some (strL "system")) :
    (handleGenerateNew st conversations conversationId dT dL dM outcome).countP isStreamCall = 0 ∧
    ((applyEvents st (handleGenerateNew st conversations conversationId dT dL dM outcome)).errorMessage
        = some (strL "Invalid diagram Type, Language, Generator, or conversation.") ∨
      (applyEvents st (handleGenerateNew st conversations conversationId dT dL dM outcome)).errorMessage
        = some (strL "No System message in this conversation")) ∧
    (applyEvents st (handleGenerateNew st conversations conversationId dT dL dM outcome)).diagramCode
      = st.diagramCode ∧
    (applyEvents st (handleGenerateNew st conversations conversationId dT dL dM outcome)).abortController
      = st.abortController := by
  have htr : handleGenerateNew st conversations conversationId dT dL dM outcome
      = [.setErrorMessage (some (strL "Invalid diagram Type, Language, Generator, or conversation."))]
    ∨ handleGenerateNew st conversations conversationId dT dL dM outcome
      = [.setErrorMessage (some (strL "No System message in this conversation"))] := by
    rcases dT with _ | t
    · exact Or.inl (by simp [handleGenerateNew, hab])
    rcases dL with _ | l
    · exact Or.inl (by simp [handleGenerateNew, hab])
    rcases dM with _ | m
    · exact Or.inl (by simp [handleGenerateNew, hab])
    cases hfind : conversations.find? (fun c => c.id == conversationId) with
    | none => exact Or.inl (by simp [handleGenerateNew, hab, hfind])
    | some conv =>
      have hsys : ¬ (conv.messages.head?).map DMessage.role = some (strL "system") := by
        rcases hbad with (h | h | h | h) | ⟨conv2, hf2, hs2⟩ <;> simp_all
      exact Or.inr (by simp [handleGenerateNew, hab, hfind, hsys])
  rcases htr with htr | htr <;> rw [htr]
  · exact ⟨by simp [isStreamCall], Or.inl (by simp [applyEvents, applyEvent]),
      by simp [applyEvents, applyEvent], by simp [applyEvents, applyEvent]⟩
  · exact ⟨by simp [isStreamCall], Or.inr (by simp [applyEvents, applyEvent]),
      by simp [applyEvents, applyEvent], by simp [applyEvents, applyEvent]⟩

/-- Witness for the amended C5: idle state, no generator selected. -/
theorem generateNew_validation_gating_witness :
    (handleGenerateNew idleState demoStore (strL "c1") none none none (.ok [])).countP isStreamCall = 0 ∧
    ((applyEvents idleState
        (handleGenerateNew idleState demoStore (strL "c1") none none none (.ok []))).errorMessage
        = some (strL "Invalid diagram Type, Language, Generator, or conversation.") ∨
      (applyEvents idleState
        (handleGenerateNew idleState demoStore (strL "c1") none none none (.ok []))).errorMessage
        = some (strL "No System message in this conversation")) ∧
    (applyEvents idleState
      (handleGenerateNew idleState demoStore (strL "c1") none none none (.ok []))).diagramCode
      = idleState.diagramCode ∧
    (applyEvents idleState
      (handleGenerateNew idleState demoStore (strL "c1") none none none (.ok []))).abortController
      = idleState.abortController :=
  generateNew_validation_gating idleState demoStore (strL "c1") none none none (.ok [])
    rfl (Or.inl (Or.inl rfl))

/-- C6 counterexample: on a cancellation-flavored rejection the stored
benign message is the literal `Interrupted.` of the source — with a
trailing period — not `Interrupted` as the claim spells it. -/
theorem cancellation_message_counterexample :
    (applyEvents idleState (handleGenerateNew idleState demoStore (strL "c1")
        (some (strL "auto")) (some (strL "plantuml")) (some (strL "gpt"))
        (.err [strL "partX"] (some (strL "AbortError")) (some (strL "boom"))))).errorMessage
      = some (strL "Interrupted.") ∧
    (applyEvents idleState (handleGenerateNew idleState demoStore (strL "c1")
        (some (strL "auto")) (some (strL "plantuml")) (some (strL "gpt"))
        (.err [strL "partX"] (some (strL "AbortError")) (some (strL "boom"))))).errorMessage
      ≠ some (strL "Interrupted") := by
  decide

/-- C6 (amended): when a valid attempt rejects with an error named
`AbortError`, the attempt ends with the abort controller back to null,
the benign message `Interrupted.` (with the trailing period of the
source), and the result still finalized by repairing whatever text the
stream had delivered. -/
theorem generateNew_cancellation_benign (st : GenState) (conversations : List Conversation)
    (conversationId : List Char) (t l m : List Char) (conv : Conversation)
    (chunks : List (List Char)) (msg : Option (List Char))
    (hab : st.abortController = false)
    (hfind : conversations.find? (fun c => c.id == conversationId) = some conv)
    (hsys : (conv.messages.head?).map DMessage.role = some (strL "system")) :
    applyEvents st (handleGenerateNew st conversations conversationId
        (some t) (some l) (some m) (.err chunks (some (strL "AbortError")) msg))
      = { diagramCode := some (hotFixDiagramCode (lastText chunks)),
          errorMessage := some (strL "Interrupted."),
          abortController := false } := by
  rw [handleGenerateNew_valid_eq st conversations conversationId t l m conv
      (.err chunks (some (strL "AbortError")) msg) hab hfind hsys,
    applyEvents_genProceed_err]
  simp

/-- Witness for the amended C6 at a concrete cancelled attempt. -/
theorem generateNew_cancellation_benign_witness :
    applyEvents idleState (handleGenerateNew idleState demoStore (strL "c1")
        (some (strL "auto")) (some (strL "plantuml")) (some (strL "gpt"))
        (.err [strL "partX"] (some (strL "AbortError")) (some (strL "boom"))))
      = { diagramCode := some (hotFixDiagramCode (lastText [strL "partX"])),
          errorMessage := some (strL "Interrupted."),
          abortController := false } :=
  generateNew_cancellation_benign idleState demoStore (strL "c1")
    (strL "auto") (strL "plantuml") (strL "gpt") demoConv [strL "partX"] (some (strL "boom"))
    rfl (by decide) (by decide)

/-- C7: committing with an absent or empty result text sets the
user-visible error, performs no store append, and does not close the
dialog. -/
theorem insertAndClose_empty_guard (diagramCode : Option (List Char))
    (diagramLlm : Option (List Char)) (conversationId : List Char) (b : Bool)
    (h : diagramCode = none ∨ diagramCode = some []) :
    handleInsertAndClose diagramCode diagramLlm conversationId b
      = [.setErrorMessage (some (strL "Nothing to add to the conversation."))] ∧
    (handleInsertAndClose diagramCode diagramLlm conversationId b).countP isStoreAppend = 0 ∧
    InsertEvent.close ∉ handleInsertAndClose diagramCode diagramLlm conversationId b := by
  rcases h with h | h <;> subst h <;>
    exact ⟨by simp [handleInsertAndClose], by simp [handleInsertAndClose, isStoreAppend],
      by simp [handleInsertAndClose]⟩

/-- Witness for C7 with an absent result text. -/
theorem insertAndClose_empty_guard_witness :
    handleInsertAndClose none (some (strL "gpt")) (strL "c1") false
      = [.setErrorMessage (some (strL "Nothing to add to the conversation."))] ∧
    (handleInsertAndClose none (some (strL "gpt")) (strL "c1") false).countP isStoreAppend = 0 ∧
    InsertEvent.close ∉ handleInsertAndClose none (some (strL "gpt")) (strL "c1") false :=
  insertAndClose_empty_guard none (some (strL "gpt")) (strL "c1") false (Or.inl rfl)

/-- C8: the unmount-effect cleanup sends the cancellation signal exactly
once when an attempt is in flight and never otherwise, and in either case
no live handle survives the teardown. -/
theorem unmountCleanup_signals_once :
    (unmountCleanup true).countP isAbortSignal = 1 ∧
    (unmountCleanup false).countP isAbortSignal = 0 ∧
    applyCleanupEvents true (unmountCleanup true) = false ∧
    applyCleanupEvents false (unmountCleanup false) = false := by
  decide

/-- C9 counterexample: an empty-but-non-null result text is rejected by
the commit handler (the truthiness check), so no message is appended and
the dialog stays open, against the claim quantified over non-null result
texts. -/
theorem insert_commits_counterexample :
    handleInsertAndClose (some []) (some (strL "gpt")) (strL "c1") false
      = [.setErrorMessage (some (strL "Nothing to add to the conversation."))] ∧
    (handleInsertAndClose (some []) (some (strL "gpt")) (strL "c1") false).countP isStoreAppend = 0 ∧
    InsertEvent.close ∉ handleInsertAndClose (some []) (some (strL "gpt")) (strL "c1") false := by
  decide

/-- C9 (amended): for every non-empty result text the commit handler —
which never reads the abort controller — appends exactly one assistant
message with the diagram origin tag (suffixed with the generator id when
one with a non-empty id is selected) and closes the dialog, while the
in-flight precondition lives only in the disabled flag of the commit
button. -/
theorem insertAndClose_commits (code : List Char) (diagramLlm : Option (List Char))
    (conversationId : List Char) (b : Bool) (h : code ≠ []) :
    handleInsertAndClose (some code) diagramLlm conversationId b
      = [.storeAppend conversationId
          { role := strL "assistant", text := code,
            originLLM := some (strL "diagram" ++
              (match diagramLlm with
               | some llmId => if llmId = [] then [] else strL "-" ++ llmId
               | none => [])) },
         .close] ∧
    handleInsertAndClose (some code) diagramLlm conversationId true
      = handleInsertAndClose (some code) diagramLlm conversationId false ∧
    addToChatDisabled (some code) true = true := by
  refine ⟨?_, rfl, by simp [addToChatDisabled]⟩
  simp [handleInsertAndClose, createDMessage, h]

/-- Witness for the amended C9 at a concrete non-empty result. -/
theorem insertAndClose_commits_witness :
    handleInsertAndClose (some (strL "X")) (some (strL "gpt")) (strL "c1") true
      = [.storeAppend (strL "c1")
          { role := strL "assistant", text := strL "X",
            originLLM := some (strL "diagram" ++
              (match some (strL "gpt") with
               | some llmId => if llmId = [] then [] else strL "-" ++ llmId
               | none => ([] : List Char))) },
         .close] ∧
    handleInsertAndClose (some (strL "X")) (some (strL "gpt")) (strL "c1") true
      = handleInsertAndClose (some (strL "X")) (some (strL "gpt")) (strL "c1") false ∧
    addToChatDisabled (some (strL "X")) true = true :=
  insertAndClose_commits (strL "X") (some (strL "gpt")) (strL "c1") true (by decide)

/-- C10: a successful attempt that never delivers a non-empty chunk
stores the repaired placeholder, which the repair function leaves
unchanged; the result is non-empty and the commit button is enabled once
the handle clears. -/
theorem generateNew_placeholder_survives (st : GenState) (conversations : List Conversation)
    (conversationId : List Char) (t l m : List Char) (conv : Conversation)
    (chunks : List (List Char))
    (hab : st.abortController = false)
    (hfind : conversations.find? (fun c => c.id == conversationId) = some conv)
    (hsys : (conv.messages.head?).map DMessage.role = some (strL "system"))
    (hemp : ∀ c ∈ chunks, c = []) :
    applyEvents st (handleGenerateNew st conversations conversationId
        (some t) (some l) (some m) (.ok chunks))
      = { diagramCode := some (strL "Loading..."), errorMessage := none,
          abortController := false } ∧
    hotFixDiagramCode (strL "Loading...") = strL "Loading..." ∧
    strL "Loading..." ≠ [] ∧
    addToChatDisabled (some (strL "Loading...")) false = false := by
  refine ⟨?_, by decide, by decide, by decide⟩
  rw [handleGenerateNew_valid_eq st conversations conversationId t l m conv
      (.ok chunks) hab hfind hsys,
    applyEvents_genProceed_ok, lastText_of_all_empty chunks hemp]
  rw [show hotFixDiagramCode (strL "Loading...") = strL "Loading..." from by decide]

/-- Witness for C10 with a stream that delivers only an empty chunk. -/
theorem generateNew_placeholder_survives_witness :
    applyEvents idleState (handleGenerateNew idleState demoStore (strL "c1")
        (some (strL "auto")) (some (strL "plantuml")) (some (strL "gpt")) (.ok [[]]))
      = { diagramCode := some (strL "Loading..."), errorMessage := none,
          abortController := false } ∧
    hotFixDiagramCode (strL "Loading...") = strL "Loading..." ∧
    strL "Loading..." ≠ [] ∧
    addToChatDisabled (some (strL "Loading...")) false = false :=
  generateNew_placeholder_survives idleState demoStore (strL "c1")
    (strL "auto") (strL "plantuml") (strL "gpt") demoConv [[]]
    rfl (by decide) (by decide) (by simp)
